import Mathlib

/-!
Shallow embedding of `main.go` of the laundris-light-stack repository.

The program is a WebSocket-to-HTTP bridge:
* `main` dials a fixed WebSocket endpoint in an infinite loop, sleeping a
  fixed 2 seconds after every dial failure;
* on success it spawns `keepAlive` (a ping goroutine guarded by a `done`
  channel) and runs `handleMessages`;
* `handleMessages` arms a 60 second read deadline, installs a pong handler
  that re-arms the deadline, then loops: `ReadJSON` into a `Command`, and
  on success forwards the command via `sendHTTPRequest`; any read error
  returns from the loop, triggering the deferred `conn.Close()` and
  `close(done)` (in that order, since defers run LIFO);
* `sendHTTPRequest` interpolates the command fields into a URL without any
  escaping and treats any HTTP status other than 200 as an error.

Time is modelled in whole seconds as `Nat`; deadlines are absolute times.
-/

/-- The decoded unit of work (`type Command struct`, main.go lines 13-17).
Field tags: `device_id`, `mode`, `turnOn`. -/
structure Command where
  DeviceID : String
  Mode : String
  TurnOn : Bool
deriving Repr, DecidableEq

/-- Constant `connectionReadLimit = 60 * time.Second` (main.go line 22),
in seconds. -/
def connectionReadLimit : Nat := 60

/-- Constant `keepAliveInterval = 3 * time.Second` (main.go line 21),
in seconds. -/
def keepAliveInterval : Nat := 3

/-- The fixed reconnect pause: `time.Sleep(2 * time.Second)` appears after a
dial failure (line 33) and after a lost connection (line 50), in seconds. -/
def backoffPause : Nat := 2

/-- A JSON value, the wire form of an inbound message (already parsed;
syntactically malformed input never reaches the decoder). -/
inductive Json where
  | null : Json
  | bool (b : Bool) : Json
  | num (n : Int) : Json
  | str (s : String) : Json
  | arr (elems : List Json) : Json
  | obj (fields : List (String × Json)) : Json
deriving Repr

/-- ASCII case folding, used for Go `encoding/json`'s case-insensitive
fallback when matching object keys against struct field tags. -/
def asciiLower (s : String) : String := String.mk (s.data.map Char.toLower)

/-- Go `encoding/json` key matching: an object key matches a field tag if it
is equal to it, or equal up to case folding. -/
def keyMatches (tag k : String) : Bool :=
  k == tag || asciiLower k == asciiLower tag

/-- `true` iff the JSON value may be stored in a `string` struct field
(`null` is accepted as a no-op by `encoding/json`). -/
def isStrOrNull : Json → Bool
  | .str _ => true
  | .null => true
  | _ => false

/-- `true` iff the JSON value may be stored in a `bool` struct field. -/
def isBoolOrNull : Json → Bool
  | .bool _ => true
  | .null => true
  | _ => false

/-- Process one object member `(k, v)` into the partially decoded command,
following `encoding/json` unmarshalling into `Command`: a key matching one
of the three field tags must carry a value of the field's type (`null` is a
no-op); unknown keys are ignored. -/
def decodeField (cmd : Command) (k : String) (v : Json) : Except String Command :=
  if keyMatches "device_id" k then
    match v with
    | .str s => .ok { cmd with DeviceID := s }
    | .null => .ok cmd
    | _ => .error "cannot unmarshal value into field Command.device_id of type string"
  else if keyMatches "mode" k then
    match v with
    | .str s => .ok { cmd with Mode := s }
    | .null => .ok cmd
    | _ => .error "cannot unmarshal value into field Command.mode of type string"
  else if keyMatches "turnOn" k then
    match v with
    | .bool b => .ok { cmd with TurnOn := b }
    | .null => .ok cmd
    | _ => .error "cannot unmarshal value into field Command.turnOn of type bool"
  else .ok cmd

/-- Fold `decodeField` over the members of a JSON object in order. -/
def decodeFields (cmd : Command) : List (String × Json) → Except String Command
  | [] => .ok cmd
  | (k, v) :: rest =>
    match decodeField cmd k v with
    | .ok cmd' => decodeFields cmd' rest
    | .error e => .error e

/-- The zero value of `Command`: `var cmd Command` (main.go line 68)
declares a fresh zero-valued struct before every read. -/
def Command.zero : Command := ⟨"", "", false⟩

/-- Decoding of one inbound message into a `Command`, the pure content of
`conn.ReadJSON(&cmd)` (main.go line 71) given the parsed JSON value:
a JSON object is folded member by member into the zero value, JSON `null`
is a no-op, and any other top-level value is a type mismatch. -/
def decodeCommand (j : Json) : Except String Command :=
  match j with
  | .null => .ok Command.zero
  | .obj fields => decodeFields Command.zero fields
  | _ => .error "cannot unmarshal value into Go value of type Command"

/-- `%t` formatting of a Go bool. -/
def boolFormat (b : Bool) : String := if b then "true" else "false"

/-- Constant `http.StatusOK`. -/
def StatusOK : Nat := 200

/-- The request URL built by `sendHTTPRequest` (main.go line 111): a
`fmt.Sprintf` that interpolates `DeviceID`, `Mode` and `TurnOn` literally,
with no URL escaping. -/
def apiURL (cmd : Command) : String :=
  "http://localhost:8080/api/device/gpo/light/" ++ cmd.DeviceID ++
    "?mode=" ++ cmd.Mode ++ "&turnOn=" ++ boolFormat cmd.TurnOn

instance {ε α : Type} [DecidableEq ε] [DecidableEq α] : DecidableEq (Except ε α)
  | .ok a, .ok b =>
    if h : a = b then isTrue (by rw [h])
    else isFalse (by intro hh; injection hh with h2; exact h h2)
  | .error a, .error b =>
    if h : a = b then isTrue (by rw [h])
    else isFalse (by intro hh; injection hh with h2; exact h h2)
  | .ok _, .error _ => isFalse (fun h => Except.noConfusion h)
  | .error _, .ok _ => isFalse (fun h => Except.noConfusion h)

/-- What `sendHTTPRequest` records once the local service answered with
`status`: the URL it posted to, and its result — an error exactly when
`resp.StatusCode != http.StatusOK` (main.go lines 133-135). -/
structure DispatchRecord where
  url : String
  result : Except String Unit
deriving Repr, DecidableEq

/-- `sendHTTPRequest` (main.go lines 109-139), given the HTTP status the
local service answers with. -/
def sendHTTPRequest (cmd : Command) (status : Nat) : DispatchRecord :=
  { url := apiURL cmd
    result :=
      if status ≠ StatusOK then
        .error ("unexpected response status: " ++ toString status)
      else .ok () }

/-- The part of the URL before the first `?` — the request path the local
HTTP server perceives. -/
def urlPath (u : String) : String :=
  String.mk (u.toList.takeWhile (fun c => c ≠ '?'))

/-! ## The read loop of `handleMessages` (main.go lines 55-84)

The loop state carries the connection's absolute read deadline (set by
`SetReadDeadline`) and the record of dispatched HTTP requests. Inbound
traffic is a schedule of timestamped frames: pong control frames (which
run the pong handler installed on lines 61-65), data messages (each
bundled with the HTTP status the local service would answer the resulting
dispatch with), and a peer close. A frame arriving after the armed
deadline means the blocking read failed with a timeout first. -/

/-- One inbound frame, timestamped with its arrival. A data frame carries
the parsed JSON payload and the HTTP status the local service answers the
resulting dispatch with. -/
inductive Frame where
  | pong (t : Nat) : Frame
  | msg (t : Nat) (payload : Json) (status : Nat) : Frame
  | close (t : Nat) : Frame
deriving Repr

/-- State of the read loop: the armed absolute read deadline, the dispatch
records produced so far (in order), and how many dispatch failures were
logged by line 81. -/
structure LoopState where
  readDeadline : Nat
  dispatched : List DispatchRecord
  dispatchErrors : Nat
deriving Repr, DecidableEq

/-- `conn.SetReadDeadline(time.Now().Add(connectionReadLimit))` at time
`now`. -/
def setReadDeadline (now : Nat) (s : LoopState) : LoopState :=
  { s with readDeadline := now + connectionReadLimit }

/-- The pong handler (main.go lines 61-65): re-arm the deadline at the
pong's arrival time. -/
def pongHandler (t : Nat) (s : LoopState) : LoopState :=
  setReadDeadline t s

/-- The loop state on entry to `handleMessages`'s `for` loop when the
session was established at time `t0`: deadline armed once (line 60),
nothing dispatched yet. -/
def initLoopState (t0 : Nat) : LoopState :=
  { readDeadline := t0 + connectionReadLimit, dispatched := [], dispatchErrors := 0 }

/-- How one read-loop pass ends: a read error (`return fmt.Errorf(...)` on
line 73) of one of the three kinds, or the loop continues. -/
inductive ReadErr where
  | timeout : ReadErr
  | decodeFail : ReadErr
  | peerClosed : ReadErr
deriving Repr, DecidableEq

/-- One blocking read, resolved by the next inbound frame. If the frame
arrives after the armed deadline, the read fails with a timeout. A pong
runs the pong handler and the read keeps blocking (modelled as a continue
with no dispatch). A data message is decoded by `ReadJSON`; decode failure
ends the loop; a decoded command is passed to `sendHTTPRequest`, whose
failure is only logged (lines 79-82) — the loop continues either way, and
the deadline is not touched on the read path. -/
def stepFrame (f : Frame) (s : LoopState) : LoopState ⊕ ReadErr :=
  match f with
  | .pong t =>
    if s.readDeadline < t then .inr .timeout
    else .inl (pongHandler t s)
  | .close t =>
    if s.readDeadline < t then .inr .timeout
    else .inr .peerClosed
  | .msg t payload status =>
    if s.readDeadline < t then .inr .timeout
    else
      match decodeCommand payload with
      | .error _ => .inr .decodeFail
      | .ok cmd =>
        match (sendHTTPRequest cmd status).result with
        | .ok _ => .inl { s with dispatched := s.dispatched ++ [sendHTTPRequest cmd status] }
        | .error _ =>
          .inl { s with dispatched := s.dispatched ++ [sendHTTPRequest cmd status],
                        dispatchErrors := s.dispatchErrors + 1 }

/-- Run the read loop over a finite schedule of inbound frames. Returns
the loop state reached and the read error that ended the loop, or `none`
when the schedule is exhausted with the loop still running. -/
def runLoop : List Frame → LoopState → LoopState × Option ReadErr
  | [], s => (s, none)
  | f :: rest, s =>
    match stepFrame f s with
    | .inl s' => runLoop rest s'
    | .inr e => (s, some e)

/-! ## The supervisor (`main`, lines 25-52) and session teardown

One successful-dial iteration of `main`'s `for` loop performs, in program
order: the dial, `go keepAlive(conn, done)`, then `handleMessages`, whose
body arms the deadline and runs the read loop; when the read loop returns
an error, the deferred calls run in LIFO order — `conn.Close()` (line 57)
first, then `close(done)` (line 56) — and `main` sleeps the fixed pause
before the next dial. `main` never waits for the `keepAlive` goroutine. -/

/-- The supervisor-visible actions of one session, in order. -/
inductive SupAction where
  | attemptDial : SupAction
  | spawnMonitor : SupAction
  | armDeadline : SupAction
  | readLoop : SupAction
  | closeConn : SupAction
  | signalStop : SupAction
  | sleepBackoff (secs : Nat) : SupAction
  | waitMonitor : SupAction
deriving Repr, DecidableEq

/-- The ordered action trace of one successful-dial iteration of `main`'s
loop (lines 40-51 together with `handleMessages`'s prologue and deferred
epilogue, lines 55-60): dial, spawn `keepAlive`, arm the deadline, run the
read loop until it errors, then `conn.Close()`, then `close(done)`, then
the fixed 2 second pause. There is no join on the monitor goroutine. -/
def sessionTrace : List SupAction :=
  [.attemptDial, .spawnMonitor, .armDeadline, .readLoop,
   .closeConn, .signalStop, .sleepBackoff backoffPause]

/-- `k` consecutive sessions of the supervisor loop, concatenated. -/
def supervisorTrace : Nat → List SupAction
  | 0 => []
  | k + 1 => sessionTrace ++ supervisorTrace k

/-! ## The connect loop of `main` on dial failure (lines 26-35)

Dial outcomes are an oracle `d : Nat → Bool` (`d n` is the success of the
`n`-th attempt). Each failed attempt logs, sleeps the fixed 2 second
pause, and `continue`s; there is no retry cap and no growth of the
pause. -/

/-- Supervisor connection state: still dialling (with the number of
attempts made and the list of pauses slept so far, in seconds), or
connected. -/
inductive ConnectState where
  | disconnected (attempts : Nat) (pauses : List Nat) : ConnectState
  | connected (attempts : Nat) (pauses : List Nat) : ConnectState
deriving Repr, DecidableEq

/-- One dial attempt (lines 30-35): on failure sleep the fixed pause and
stay in the loop; on success leave the connect loop. -/
def dialStep (d : Nat → Bool) : ConnectState → ConnectState
  | .disconnected n pauses =>
    if d n then .connected (n + 1) pauses
    else .disconnected (n + 1) (pauses ++ [backoffPause])
  | .connected n pauses => .connected n pauses

/-- `k` iterations of the connect loop from the initial state. -/
def runConnect (d : Nat → Bool) : Nat → ConnectState
  | 0 => .disconnected 0 []
  | k + 1 => dialStep d (runConnect d k)

/-! ## The liveness monitor `keepAlive` (lines 87-106)

The goroutine loops on `select { case <-done: return; case <-ticker.C:
WriteMessage(Ping) }`. Go's `select` chooses uniformly among the *ready*
cases: it gives the `done` case no priority over a pending tick. A ping
write on a connection that is already closed fails, in which case the
goroutine logs and returns. -/

/-- The two `select` cases of `keepAlive`'s loop. -/
inductive MonChoice where
  | stop : MonChoice
  | tick : MonChoice
deriving Repr, DecidableEq

/-- Readiness environment at one `select`: whether `done` has been closed,
whether a ticker tick is pending, and whether the connection has been
closed (making a ping write fail). -/
structure MonEnv where
  doneClosed : Bool
  tickPending : Bool
  connClosed : Bool
deriving Repr, DecidableEq

/-- Go `select` semantics: a case can be chosen iff its channel is ready;
no priority between ready cases. -/
def choiceEnabled (e : MonEnv) : MonChoice → Bool
  | .stop => e.doneClosed
  | .tick => e.tickPending

/-- Monitor state: whether the goroutine is still running, how many ping
writes it attempted (calls to `WriteMessage`), and how many ping frames
actually went out on the wire (successful writes). -/
structure MonState where
  running : Bool
  probeAttempts : Nat
  probesSent : Nat
deriving Repr, DecidableEq

/-- The monitor at start: `go keepAlive(conn, done)`. -/
def monInit : MonState :=
  { running := true, probeAttempts := 0, probesSent := 0 }

/-- The body of the chosen `select` case (lines 93-103): `<-done` returns;
`<-ticker.C` calls `WriteMessage(PingMessage)`, which fails iff the
connection is closed — on failure the goroutine logs and returns, on
success it loops. -/
def monStep (e : MonEnv) (c : MonChoice) (s : MonState) : MonState :=
  match c with
  | .stop => { s with running := false }
  | .tick =>
    if e.connClosed then
      { s with probeAttempts := s.probeAttempts + 1, running := false }
    else
      { s with probeAttempts := s.probeAttempts + 1,
               probesSent := s.probesSent + 1 }

/-- Run the monitor over a schedule of `select` resolutions. A step is
taken only while the goroutine runs and only when the scheduled choice is
ready (Go `select` never fires a non-ready case); a scheduled choice that
is not ready resolves to whatever other case the runtime picks, so such
schedule entries are skipped. -/
def monRun : List (MonEnv × MonChoice) → MonState → MonState
  | [], s => s
  | (e, c) :: rest, s =>
    if s.running && choiceEnabled e c then monRun rest (monStep e c s)
    else if s.running then monRun rest s
    else s

/-! ## Characterisation of the decoder -/

/-- An object key that matches one of the three `Command` field tags. -/
def knownKey (k : String) : Bool :=
  keyMatches "device_id" k || keyMatches "mode" k || keyMatches "turnOn" k

/-- An object member whose key matches a `Command` field tag but whose
value has the wrong type for that field. -/
def fieldTypeMismatch (k : String) (v : Json) : Bool :=
  (keyMatches "device_id" k && !isStrOrNull v) ||
  (keyMatches "mode" k && !isStrOrNull v) ||
  (keyMatches "turnOn" k && !isBoolOrNull v)

lemma decodeField_unknown (cmd : Command) (k : String) (v : Json)
    (h : knownKey k = false) : decodeField cmd k v = .ok cmd := by
  unfold knownKey at h
  simp only [Bool.or_eq_false_iff] at h
  unfold decodeField
  simp [h.1.1, h.1.2, h.2]

lemma decodeField_ok_of_no_mismatch (cmd : Command) (k : String) (v : Json)
    (h : fieldTypeMismatch k v = false) :
    ∃ cmd', decodeField cmd k v = .ok cmd' := by
  unfold fieldTypeMismatch at h
  simp only [Bool.or_eq_false_iff, Bool.and_eq_false_iff, Bool.not_eq_false'] at h
  unfold decodeField
  by_cases h1 : keyMatches "device_id" k
  · rcases h.1.1 with h' | h'
    · exact absurd h1 (by simp [h'])
    · cases v <;> simp_all [isStrOrNull, isBoolOrNull]
  · by_cases h2 : keyMatches "mode" k
    · rcases h.1.2 with h' | h'
      · exact absurd h2 (by simp [h'])
      · cases v <;> simp_all [isStrOrNull, isBoolOrNull]
    · by_cases h3 : keyMatches "turnOn" k
      · rcases h.2 with h' | h'
        · exact absurd h3 (by simp [h'])
        · cases v <;> simp_all [isStrOrNull, isBoolOrNull]
      · simp [h1, h2, h3]

lemma decodeField_error_mismatch (cmd : Command) (k : String) (v : Json)
    (e : String) (h : decodeField cmd k v = .error e) :
    fieldTypeMismatch k v = true := by
  by_cases hm : fieldTypeMismatch k v
  · exact hm
  · obtain ⟨cmd', hok⟩ := decodeField_ok_of_no_mismatch cmd k v (by simpa using hm)
    rw [hok] at h
    exact Except.noConfusion h

lemma decodeFields_unknown (cmd : Command) (fs : List (String × Json))
    (h : ∀ kv ∈ fs, knownKey kv.1 = false) : decodeFields cmd fs = .ok cmd := by
  induction fs generalizing cmd with
  | nil => rfl
  | cons kv rest ih =>
    obtain ⟨k, v⟩ := kv
    unfold decodeFields
    rw [decodeField_unknown cmd k v (h ⟨k, v⟩ (by simp))]
    exact ih cmd (fun kv' hkv' => h kv' (by simp [hkv']))

lemma decodeFields_ok_of_no_mismatch (cmd : Command) (fs : List (String × Json))
    (h : ∀ kv ∈ fs, fieldTypeMismatch kv.1 kv.2 = false) :
    ∃ cmd', decodeFields cmd fs = .ok cmd' := by
  induction fs generalizing cmd with
  | nil => exact ⟨cmd, rfl⟩
  | cons kv rest ih =>
    obtain ⟨k, v⟩ := kv
    obtain ⟨cmd1, h1⟩ :=
      decodeField_ok_of_no_mismatch cmd k v (h ⟨k, v⟩ (by simp))
    obtain ⟨cmd2, h2⟩ := ih cmd1 (fun kv' hkv' => h kv' (by simp [hkv']))
    refine ⟨cmd2, ?_⟩
    unfold decodeFields
    rw [h1]
    exact h2

lemma decodeFields_error_mismatch (cmd : Command) (fs : List (String × Json))
    (e : String) (h : decodeFields cmd fs = .error e) :
    ∃ kv ∈ fs, fieldTypeMismatch kv.1 kv.2 = true := by
  induction fs generalizing cmd with
  | nil => exact Except.noConfusion h
  | cons kv rest ih =>
    obtain ⟨k, v⟩ := kv
    unfold decodeFields at h
    rcases hf : decodeField cmd k v with e' | cmd'
    · exact ⟨⟨k, v⟩, by simp, decodeField_error_mismatch cmd k v _ hf⟩
    · rw [hf] at h
      obtain ⟨kv', hmem, hmis⟩ := ih cmd' h
      exact ⟨kv', by simp [hmem], hmis⟩

/-! ## Concrete inputs used by the claims -/

/-- The scenario payload with the boolean field named as the code's JSON
tag spells it: `{device_id:"A1", mode:"auto", turnOn:true}`. -/
def payloadA1 : Json :=
  .obj [("device_id", .str "A1"), ("mode", .str "auto"), ("turnOn", .bool true)]

/-- The scenario payload with the boolean field named as the spec's
inbound wire format spells it: `{device_id:"A1", mode:"auto",
turn_on:true}`. -/
def payloadA1underscore : Json :=
  .obj [("device_id", .str "A1"), ("mode", .str "auto"), ("turn_on", .bool true)]

/-- The command `{DeviceID: "A1", Mode: "auto", TurnOn: true}`. -/
def cmdA1 : Command := ⟨"A1", "auto", true⟩

/-- A dial oracle on which every attempt fails. -/
def alwaysFail : Nat → Bool := fun _ => false

/-! ## Claims -/

/-- Claim C1, counterexample: a successful read does **not** re-arm the read
deadline. With the deadline armed at time 0 (so expiring at 60), a command
read successfully at time 30 leaves the deadline at 60 — not at
30 + 60 as the claim requires — and a session receiving steady commands
(inter-arrival 31 s, well under the 60 s deadline duration) but no pongs
then times out at the second read, a spurious `TimeoutError` under steady
traffic. -/
theorem C1_counterexample :
    stepFrame (Frame.msg 30 payloadA1 200) (initLoopState 0) =
      .inl { readDeadline := 60, dispatched := [sendHTTPRequest cmdA1 200],
             dispatchErrors := 0 } ∧
    (60 : Nat) ≠ 30 + connectionReadLimit ∧
    (runLoop [Frame.msg 30 payloadA1 200, Frame.msg 61 payloadA1 200]
        (initLoopState 0)).2 = some ReadErr.timeout ∧
    61 - 30 < connectionReadLimit := by
  decide

/-- Claim C1, amended: only an inbound liveness-probe acknowledgment (pong)
re-arms the read deadline, to "now + deadline duration"; a successful
`read_next()` leaves the deadline unchanged, so steady Commands without
probe acks do not prevent a timeout once the last-armed deadline passes. -/
theorem C1_amended_deadline (t u status : Nat) (payload : Json)
    (s s' : LoopState)
    (hstep : stepFrame (Frame.msg t payload status) s = .inl s')
    (hu : u ≤ s.readDeadline) :
    s'.readDeadline = s.readDeadline ∧
    stepFrame (Frame.pong u) s = .inl (pongHandler u s) ∧
    (pongHandler u s).readDeadline = u + connectionReadLimit := by
  refine ⟨?_, ?_, rfl⟩
  · simp only [stepFrame] at hstep
    split at hstep
    · exact Sum.noConfusion hstep
    · split at hstep
      · exact Sum.noConfusion hstep
      · split at hstep <;> (cases hstep; rfl)
  · simp only [stepFrame]
    rw [if_neg (by omega)]

/-- Witness for C1: the amended theorem applied at the successful read of
`payloadA1` at time 30 from the initial state armed at 0, and a pong at
time 0. -/
theorem C1_witness :
    ({ readDeadline := 60, dispatched := [sendHTTPRequest cmdA1 200],
       dispatchErrors := 0 } : LoopState).readDeadline =
      (initLoopState 0).readDeadline ∧
    stepFrame (Frame.pong 0) (initLoopState 0) =
      .inl (pongHandler 0 (initLoopState 0)) ∧
    (pongHandler 0 (initLoopState 0)).readDeadline = 0 + connectionReadLimit :=
  C1_amended_deadline 30 0 200 payloadA1 (initLoopState 0) _ (by decide) (by decide)

/-- Claim C2, counterexample: the code's JSON tag for the boolean field is
`turnOn`, so the wire payload `{device_id:"A1", mode:"auto", turn_on:true}`
(the spec's field name, matching neither exactly nor case-insensitively)
decodes with `TurnOn = false`, and the dispatcher request carries
`turnOn=false`, not `turnOn=true` as the claim states. -/
theorem C2_counterexample :
    decodeCommand payloadA1underscore = .ok ⟨"A1", "auto", false⟩ ∧
    Command.TurnOn ⟨"A1", "auto", false⟩ = false ∧
    (sendHTTPRequest ⟨"A1", "auto", false⟩ 200).url =
      "http://localhost:8080/api/device/gpo/light/A1?mode=auto&turnOn=false" := by
  decide

/-- Claim C2, amended: the inbound boolean field the code decodes is named
`turnOn`. For `{device_id:"A1", mode:"auto", turnOn:true}` the decoded
Command has `TurnOn = true` and the Dispatcher receives a request targeting
device A1 with `mode=auto&turnOn=true` (and on success the loop continues);
the `turn_on`-named payload instead decodes with `TurnOn = false`. -/
theorem C2_amended_turnOn_tag :
    decodeCommand payloadA1 = .ok cmdA1 ∧
    runLoop [Frame.msg 1 payloadA1 200] (initLoopState 0) =
      ({ readDeadline := 60,
         dispatched :=
           [⟨"http://localhost:8080/api/device/gpo/light/A1?mode=auto&turnOn=true",
             .ok ()⟩],
         dispatchErrors := 0 }, none) ∧
    decodeCommand payloadA1underscore = .ok ⟨"A1", "auto", false⟩ := by
  decide

/-- Claim C9: the dispatcher call treats exactly HTTP status 200
(`http.StatusOK`) as success; any other status — including other 2xx codes
such as 201 or 204 — yields an error from `sendHTTPRequest`. -/
theorem C9_status_200_only (cmd : Command) (status : Nat) :
    ((sendHTTPRequest cmd status).result = .ok () ↔ status = 200) ∧
    (sendHTTPRequest cmd 201).result =
      .error ("unexpected response status: " ++ toString 201) ∧
    (sendHTTPRequest cmd 204).result =
      .error ("unexpected response status: " ++ toString 204) := by
  refine ⟨?_, by simp [sendHTTPRequest, StatusOK], by simp [sendHTTPRequest, StatusOK]⟩
  unfold sendHTTPRequest StatusOK
  by_cases h : status = 200
  · simp [h]
  · simp [h]

/-- Witness for C9: the status check evaluated at the command `cmdA1` and
status 200. -/
theorem C9_witness :
    ((sendHTTPRequest cmdA1 200).result = .ok () ↔ (200 : Nat) = 200) ∧
    (sendHTTPRequest cmdA1 201).result =
      .error ("unexpected response status: " ++ toString 201) ∧
    (sendHTTPRequest cmdA1 204).result =
      .error ("unexpected response status: " ++ toString 204) :=
  C9_status_200_only cmdA1 200

/-- Claim C10: the outbound request URL is the literal unescaped
interpolation of `DeviceID` into the path and `Mode`/`TurnOn` into the
query string. Consequently URL metacharacters change the structure the
local service perceives: the two distinct commands `("A", "B?mode=C")` and
`("A?mode=B", "C")` produce identical request URLs, and a `DeviceID`
containing `?`, such as `A1?x=1&y=2`, yields the same perceived request
path as plain `A1` — the rest of the identifier leaks into the query. -/
theorem C10_literal_interpolation (cmd : Command) :
    apiURL cmd = "http://localhost:8080/api/device/gpo/light/" ++ cmd.DeviceID ++
      "?mode=" ++ cmd.Mode ++ "&turnOn=" ++ boolFormat cmd.TurnOn ∧
    apiURL ⟨"A", "B?mode=C", true⟩ = apiURL ⟨"A?mode=B", "C", true⟩ ∧
    (⟨"A", "B?mode=C", true⟩ : Command) ≠ ⟨"A?mode=B", "C", true⟩ ∧
    urlPath (apiURL ⟨"A1", "auto", true⟩) =
      "http://localhost:8080/api/device/gpo/light/A1" ∧
    urlPath (apiURL ⟨"A1?x=1&y=2", "auto", true⟩) =
      "http://localhost:8080/api/device/gpo/light/A1" := by
  exact ⟨rfl, by decide, by decide, by decide, by decide⟩

/-- Witness for C10: the interpolation shape evaluated at `cmdA1`. -/
theorem C10_witness :
    apiURL cmdA1 = "http://localhost:8080/api/device/gpo/light/" ++ cmdA1.DeviceID ++
      "?mode=" ++ cmdA1.Mode ++ "&turnOn=" ++ boolFormat cmdA1.TurnOn ∧
    apiURL ⟨"A", "B?mode=C", true⟩ = apiURL ⟨"A?mode=B", "C", true⟩ ∧
    (⟨"A", "B?mode=C", true⟩ : Command) ≠ ⟨"A?mode=B", "C", true⟩ ∧
    urlPath (apiURL ⟨"A1", "auto", true⟩) =
      "http://localhost:8080/api/device/gpo/light/A1" ∧
    urlPath (apiURL ⟨"A1?x=1&y=2", "auto", true⟩) =
      "http://localhost:8080/api/device/gpo/light/A1" :=
  C10_literal_interpolation cmdA1

/-- Claim C3, counterexample: Go `select` gives the `done` case no priority
over a pending ticker tick — with the stop signal fired and a tick pending
both cases are ready, and an execution in which the runtime picks the tick
makes the Monitor attempt one further probe write after the stop signal has
fired, instead of transitioning to `Stopped` immediately. -/
theorem C3_counterexample :
    choiceEnabled ⟨true, true, true⟩ MonChoice.stop = true ∧
    choiceEnabled ⟨true, true, true⟩ MonChoice.tick = true ∧
    (monRun [(⟨true, true, true⟩, MonChoice.tick)] monInit).probeAttempts = 1 ∧
    monInit.probeAttempts = 0 := by
  decide

/-- Claim C3, amended: exactly one of {stop signal, tick} is acted upon per
loop iteration; acting on the stop signal makes no probe attempt and stops
the Monitor; but when a tick is already pending at the moment the signal
fires, the tick may be the case acted upon, causing one further probe write
attempt — which, the transport having been closed before the signal was
sent, fails without putting a probe frame on the wire, after which the
Monitor stops as well. -/
theorem C3_amended_no_select_priority (e : MonEnv) (s : MonState)
    (rest : List (MonEnv × MonChoice)) (c : MonChoice)
    (hrun : s.running = true) (hen : choiceEnabled e c = true)
    (hconn : e.connClosed = true) :
    monRun ((e, c) :: rest) s = monRun rest (monStep e c s) ∧
    (monStep e MonChoice.stop s).probeAttempts = s.probeAttempts ∧
    (monStep e MonChoice.stop s).running = false ∧
    (monStep e MonChoice.tick s).probesSent = s.probesSent ∧
    (monStep e MonChoice.tick s).running = false := by
  refine ⟨?_, rfl, rfl, ?_, ?_⟩
  · simp [monRun, hrun, hen]
  · simp [monStep, hconn]
  · simp [monStep, hconn]

/-- Witness for C3: the amended theorem at the environment where the stop
signal has fired, a tick is pending and the connection is closed, with the
`select` resolving to the stop case. -/
theorem C3_witness :
    monRun [(⟨true, true, true⟩, MonChoice.stop)] monInit =
      monRun [] (monStep ⟨true, true, true⟩ MonChoice.stop monInit) ∧
    (monStep ⟨true, true, true⟩ MonChoice.stop monInit).probeAttempts =
      monInit.probeAttempts ∧
    (monStep ⟨true, true, true⟩ MonChoice.stop monInit).running = false ∧
    (monStep ⟨true, true, true⟩ MonChoice.tick monInit).probesSent =
      monInit.probesSent ∧
    (monStep ⟨true, true, true⟩ MonChoice.tick monInit).running = false :=
  C3_amended_no_select_priority ⟨true, true, true⟩ monInit [] MonChoice.stop
    rfl rfl rfl

/-- Claim C4, counterexample: in the teardown of a session the transport is
closed *before* the stop signal is sent (`defer conn.Close()` registered
after `defer close(done)` runs first), and the Supervisor never waits for
the Monitor to observe the signal before starting the next connection
attempt — contradicting "the Monitor observes the signal and exits before
the Supervisor closes the Session's transport resource and starts the next
connection attempt". -/
theorem C4_counterexample :
    sessionTrace.indexOf SupAction.closeConn <
      sessionTrace.indexOf SupAction.signalStop ∧
    SupAction.waitMonitor ∉ sessionTrace := by
  decide

/-- Claim C4, amended: the stop signal is sent exactly once per Session,
after the read loop has definitively exited; but the Session's transport
resource is closed *before* the signal is sent, and the Supervisor starts
the next connection attempt without waiting for the Monitor to observe the
signal, so the Monitor may outlive its Session into the start of the next
attempt. -/
theorem C4_amended_teardown_order :
    List.count SupAction.signalStop sessionTrace = 1 ∧
    sessionTrace.indexOf SupAction.readLoop <
      sessionTrace.indexOf SupAction.signalStop ∧
    sessionTrace.indexOf SupAction.closeConn <
      sessionTrace.indexOf SupAction.signalStop ∧
    SupAction.waitMonitor ∉ sessionTrace ∧
    ∀ k, List.count SupAction.signalStop (supervisorTrace k) = k := by
  refine ⟨by decide, by decide, by decide, by decide, ?_⟩
  intro k
  induction k with
  | zero => rfl
  | succ k ih =>
    show List.count _ (sessionTrace ++ supervisorTrace k) = k + 1
    rw [List.count_append, ih,
      show List.count SupAction.signalStop sessionTrace = 1 from by decide]
    omega

/-- Witness for C4: the per-session signal count evaluated over five
supervisor cycles. -/
theorem C4_witness :
    List.count SupAction.signalStop (supervisorTrace 5) = 5 :=
  C4_amended_teardown_order.2.2.2.2 5

/-- Claim C5: every read failure — timeout, decode failure, or peer close
alike — is terminal for its Session: a malformed inbound payload, any frame
(data, pong or close) arriving only after the armed deadline has elapsed,
and a peer close within the deadline each end the read loop at once, with
the frames scheduled after them never processed; the session teardown then
closes the connection, sends the stop signal and sleeps the fixed 2 second
pause, after which the very next supervisor action is a new dial
attempt. -/
theorem C5_read_error_teardown (t t2 status : Nat) (payload payload2 : Json)
    (e : String) (s : LoopState) (rest : List Frame)
    (hdec : decodeCommand payload = .error e) (ht : ¬ s.readDeadline < t)
    (hlate : s.readDeadline < t2) :
    runLoop (Frame.msg t payload status :: rest) s =
      (s, some ReadErr.decodeFail) ∧
    runLoop (Frame.msg t2 payload2 status :: rest) s =
      (s, some ReadErr.timeout) ∧
    runLoop (Frame.pong t2 :: rest) s = (s, some ReadErr.timeout) ∧
    runLoop (Frame.close t2 :: rest) s = (s, some ReadErr.timeout) ∧
    runLoop (Frame.close t :: rest) s = (s, some ReadErr.peerClosed) ∧
    sessionTrace.indexOf SupAction.readLoop <
      sessionTrace.indexOf SupAction.closeConn ∧
    SupAction.closeConn ∈ sessionTrace ∧
    SupAction.signalStop ∈ sessionTrace ∧
    SupAction.sleepBackoff backoffPause ∈ sessionTrace ∧
    (supervisorTrace 2).get? sessionTrace.length = some SupAction.attemptDial := by
  refine ⟨?_, ?_, ?_, ?_, ?_, by decide, by decide, by decide, by decide, by decide⟩
  · have hstep : stepFrame (Frame.msg t payload status) s = .inr ReadErr.decodeFail := by
      simp only [stepFrame]
      rw [if_neg ht, hdec]
    simp only [runLoop, hstep]
  · have hstep : stepFrame (Frame.msg t2 payload2 status) s = .inr ReadErr.timeout := by
      simp only [stepFrame]
      rw [if_pos hlate]
    simp only [runLoop, hstep]
  · have hstep : stepFrame (Frame.pong t2) s = .inr ReadErr.timeout := by
      simp only [stepFrame]
      rw [if_pos hlate]
    simp only [runLoop, hstep]
  · have hstep : stepFrame (Frame.close t2) s = .inr ReadErr.timeout := by
      simp only [stepFrame]
      rw [if_pos hlate]
    simp only [runLoop, hstep]
  · have hstep : stepFrame (Frame.close t) s = .inr ReadErr.peerClosed := by
      simp only [stepFrame]
      rw [if_neg ht]
    simp only [runLoop, hstep]

/-- Witness for C5: against the initial state armed at 0 (deadline 60), a
malformed payload (a bare JSON string where an object is expected) read at
time 1 ends the loop with a decode failure; a data frame, a pong or a close
arriving only at time 61 each end it with a timeout; a peer close at time 1
ends it with a peer-close error — in every case without processing the
scheduled later frame. -/
theorem C5_witness :
    runLoop [Frame.msg 1 (Json.str "oops") 200, Frame.msg 2 payloadA1 200]
        (initLoopState 0) = (initLoopState 0, some ReadErr.decodeFail) ∧
    runLoop [Frame.msg 61 payloadA1 200, Frame.msg 62 payloadA1 200]
        (initLoopState 0) = (initLoopState 0, some ReadErr.timeout) ∧
    runLoop [Frame.pong 61, Frame.msg 2 payloadA1 200] (initLoopState 0) =
      (initLoopState 0, some ReadErr.timeout) ∧
    runLoop [Frame.close 61, Frame.msg 2 payloadA1 200] (initLoopState 0) =
      (initLoopState 0, some ReadErr.timeout) ∧
    runLoop [Frame.close 1, Frame.msg 2 payloadA1 200] (initLoopState 0) =
      (initLoopState 0, some ReadErr.peerClosed) ∧
    sessionTrace.indexOf SupAction.readLoop <
      sessionTrace.indexOf SupAction.closeConn ∧
    SupAction.closeConn ∈ sessionTrace ∧
    SupAction.signalStop ∈ sessionTrace ∧
    SupAction.sleepBackoff backoffPause ∈ sessionTrace ∧
    (supervisorTrace 2).get? sessionTrace.length = some SupAction.attemptDial :=
  C5_read_error_teardown 1 61 200 (Json.str "oops") payloadA1
    "cannot unmarshal value into Go value of type Command"
    (initLoopState 0) [Frame.msg 2 payloadA1 200] rfl (by decide) (by decide)

/-- Claim C6: a `DispatchError` for one Command does not terminate the read
loop and does not close the connection: the failed dispatch is recorded
(and logged) and the loop proceeds to the remaining frames; concretely,
after a dispatch failing with status 500 the next Command is still read
and dispatched. -/
theorem C6_dispatch_error_nonfatal (t status : Nat) (payload : Json)
    (cmd : Command) (s : LoopState) (rest : List Frame)
    (hdec : decodeCommand payload = .ok cmd) (ht : ¬ s.readDeadline < t)
    (hstatus : status ≠ StatusOK) :
    (sendHTTPRequest cmd status).result =
      .error ("unexpected response status: " ++ toString status) ∧
    runLoop (Frame.msg t payload status :: rest) s =
      runLoop rest
        { s with dispatched := s.dispatched ++ [sendHTTPRequest cmd status],
                 dispatchErrors := s.dispatchErrors + 1 } ∧
    runLoop [Frame.msg 1 payloadA1 500, Frame.msg 2 payloadA1 200]
        (initLoopState 0) =
      ({ readDeadline := 60,
         dispatched := [sendHTTPRequest cmdA1 500, sendHTTPRequest cmdA1 200],
         dispatchErrors := 1 }, none) := by
  have hres : (sendHTTPRequest cmd status).result =
      .error ("unexpected response status: " ++ toString status) := by
    simp [sendHTTPRequest, hstatus]
  refine ⟨hres, ?_, by decide⟩
  have hstep : stepFrame (Frame.msg t payload status) s =
      .inl { s with dispatched := s.dispatched ++ [sendHTTPRequest cmd status],
                    dispatchErrors := s.dispatchErrors + 1 } := by
    simp only [stepFrame]
    rw [if_neg ht, hdec]
    simp only [hres]
  simp only [runLoop, hstep]

/-- Witness for C6: the dispatch of `payloadA1` answered with status 500 at
time 1; the loop continues after the error. -/
theorem C6_witness :
    (sendHTTPRequest cmdA1 500).result =
      .error ("unexpected response status: " ++ toString 500) ∧
    runLoop [Frame.msg 1 payloadA1 500] (initLoopState 0) =
      runLoop []
        { initLoopState 0 with
            dispatched := (initLoopState 0).dispatched ++ [sendHTTPRequest cmdA1 500],
            dispatchErrors := (initLoopState 0).dispatchErrors + 1 } ∧
    runLoop [Frame.msg 1 payloadA1 500, Frame.msg 2 payloadA1 200]
        (initLoopState 0) =
      ({ readDeadline := 60,
         dispatched := [sendHTTPRequest cmdA1 500, sendHTTPRequest cmdA1 200],
         dispatchErrors := 1 }, none) :=
  C6_dispatch_error_nonfatal 1 500 payloadA1 cmdA1 (initLoopState 0) []
    (by decide) (by decide) (by decide)

/-- Claim C7: for every sequence of dial failures, however long, the
Supervisor is still in the connect loop after `k` failed attempts, having
slept exactly the fixed 2 second pause after each failure — the pauses are
`replicate k backoffPause`, so there is no exponential growth and no retry
cap, and the loop is never exited. -/
theorem C7_dial_retry_forever (d : Nat → Bool) (k : Nat)
    (hfail : ∀ n, d n = false) :
    runConnect d k = .disconnected k (List.replicate k backoffPause) := by
  induction k with
  | zero => rfl
  | succ k ih =>
    show dialStep d (runConnect d k) = _
    rw [ih]
    simp [dialStep, hfail k, List.replicate_succ']

/-- Witness for C7: after three failed dial attempts the supervisor is
still dialling and has slept the fixed pause three times. -/
theorem C7_witness :
    runConnect alwaysFail 3 = .disconnected 3 (List.replicate 3 backoffPause) :=
  C7_dial_retry_forever alwaysFail 3 (fun _ => rfl)

/-- Claim C8: an inbound JSON object that omits some or all of the three
command fields, or carries extra unknown fields, decodes successfully —
an object with no known key at all decodes to the zero value
(`DeviceID = ""`, `Mode = ""`, `TurnOn = false`); an object all of whose
known-key members are well-typed decodes successfully; and a decode failure
on an object implies some present member whose key matches a command field
but whose value has the wrong type. An object consisting of one unknown
field is decoded and dispatched to the local service with zero values. -/
theorem C8_lenient_decode :
    (∀ fs, (∀ kv ∈ fs, knownKey kv.1 = false) →
      decodeCommand (Json.obj fs) = .ok Command.zero) ∧
    (∀ fs, (∀ kv ∈ fs, fieldTypeMismatch kv.1 kv.2 = false) →
      ∃ cmd, decodeCommand (Json.obj fs) = .ok cmd) ∧
    (∀ fs e, decodeCommand (Json.obj fs) = .error e →
      ∃ kv ∈ fs, fieldTypeMismatch kv.1 kv.2 = true) ∧
    runLoop [Frame.msg 1 (Json.obj [("unknown", Json.num 5)]) 200]
        (initLoopState 0) =
      ({ readDeadline := 60, dispatched := [sendHTTPRequest Command.zero 200],
         dispatchErrors := 0 }, none) := by
  refine ⟨?_, ?_, ?_, by decide⟩
  · intro fs h
    exact decodeFields_unknown Command.zero fs h
  · intro fs h
    exact decodeFields_ok_of_no_mismatch Command.zero fs h
  · intro fs e h
    exact decodeFields_error_mismatch Command.zero fs e h

/-- Witness for C8: an object with a single unknown field decodes to the
zero-valued command. -/
theorem C8_witness :
    decodeCommand (Json.obj [("extra", Json.num 5)]) = .ok Command.zero :=
  C8_lenient_decode.1 [("extra", Json.num 5)] (by decide)
